import Mathlib

/-!
Verification of the org_kde_plasma_shell server-side interface
(src/src/server/plasmashell_interface.h) against its specification.

The repository ships only the public header; the enumerations below are
transcribed from the header, while the request/notification behaviour of the
shell surface and of the shell global is modelled from the specification
(each such definition carries a doc comment starting with the words
Modelled from the spec).
-/

namespace PlasmaShell

/-- Role enumeration of PlasmaShellSurfaceInterface, transcribed from the
header lines 87 to 95. C++ enum class numbering starts at 0 and increments. -/
inductive Role
  | Normal
  | Desktop
  | Panel
  | OnScreenDisplay
  | Notification
  | ToolTip
  | CriticalNotification
deriving DecidableEq, Repr, Fintype

/-- Wire code of each Role, following the implicit C++ enumerator values. -/
def Role.code : Role → Nat
  | .Normal => 0
  | .Desktop => 1
  | .Panel => 2
  | .OnScreenDisplay => 3
  | .Notification => 4
  | .ToolTip => 5
  | .CriticalNotification => 6

/-- Decode a wire integer to a Role; out-of-range codes decode to none. -/
def Role.ofCode : Nat → Option Role
  | 0 => some .Normal
  | 1 => some .Desktop
  | 2 => some .Panel
  | 3 => some .OnScreenDisplay
  | 4 => some .Notification
  | 5 => some .ToolTip
  | 6 => some .CriticalNotification
  | _ => none

/-- PanelBehavior enumeration, transcribed from the header lines 103 to 108. -/
inductive PanelBehavior
  | AlwaysVisible
  | AutoHide
  | WindowsCanCover
  | WindowsGoBelow
deriving DecidableEq, Repr, Fintype

/-- Wire code of each PanelBehavior, following the implicit C++ values. -/
def PanelBehavior.code : PanelBehavior → Nat
  | .AlwaysVisible => 0
  | .AutoHide => 1
  | .WindowsCanCover => 2
  | .WindowsGoBelow => 3

/-- Decode a wire integer to a PanelBehavior; out-of-range codes give none. -/
def PanelBehavior.ofCode : Nat → Option PanelBehavior
  | 0 => some .AlwaysVisible
  | 1 => some .AutoHide
  | 2 => some .WindowsCanCover
  | 3 => some .WindowsGoBelow
  | _ => none

/-- WindowType enumeration, transcribed from the header lines 169 to 200,
with the explicit enumerator values of the source, including the source
spelling TYPE_UNKNOW for the minus-one sentinel. -/
inductive WindowType
  | TYPE_WALLPAPER
  | TYPE_DESKTOP
  | TYPE_DIALOG
  | TYPE_SYS_SPLASH
  | TYPE_SEARCH_BAR
  | TYPE_NOTIFICATION
  | TYPE_CRITICAL_NOTIFICATION
  | TYPE_INPUT_METHOD
  | TYPE_INPUT_METHOD_DIALOG
  | TYPE_DND
  | TYPE_DOCK
  | TYPE_STATUS_BAR
  | TYPE_STATUS_BAR_PANEL
  | TYPE_TOAST
  | TYPE_KEYGUARD
  | TYPE_PHONE
  | TYPE_SYSTEM_DIALOG
  | TYPE_SYSTEM_ERROR
  | TYPE_VOICE_INTERACTION
  | TYPE_SYSTEM_OVERLAY
  | TYPE_SCREENSHOT
  | TYPE_BOOT_PROGRESS
  | TYPE_POINTER
  | TYPE_LAST_SYS_LAYER
  | TYPE_BASE_APPLICATION
  | TYPE_APPLICATION
  | TYPE_APPLICATION_STARTING
  | TYPE_APPLICATION_OVERLAY
  | TYPE_LAST_APPLICATION_WINDOW
  | TYPE_UNKNOW
deriving DecidableEq, Repr, Fintype

/-- Integer value of each WindowType enumerator, as written in the header. -/
def WindowType.code : WindowType → Int
  | .TYPE_WALLPAPER => 2000
  | .TYPE_DESKTOP => 2001
  | .TYPE_DIALOG => 2002
  | .TYPE_SYS_SPLASH => 2003
  | .TYPE_SEARCH_BAR => 2004
  | .TYPE_NOTIFICATION => 2005
  | .TYPE_CRITICAL_NOTIFICATION => 2006
  | .TYPE_INPUT_METHOD => 2007
  | .TYPE_INPUT_METHOD_DIALOG => 2008
  | .TYPE_DND => 2009
  | .TYPE_DOCK => 2010
  | .TYPE_STATUS_BAR => 2011
  | .TYPE_STATUS_BAR_PANEL => 2012
  | .TYPE_TOAST => 2013
  | .TYPE_KEYGUARD => 2014
  | .TYPE_PHONE => 2015
  | .TYPE_SYSTEM_DIALOG => 2016
  | .TYPE_SYSTEM_ERROR => 2017
  | .TYPE_VOICE_INTERACTION => 2018
  | .TYPE_SYSTEM_OVERLAY => 2019
  | .TYPE_SCREENSHOT => 2020
  | .TYPE_BOOT_PROGRESS => 2021
  | .TYPE_POINTER => 2022
  | .TYPE_LAST_SYS_LAYER => 2099
  | .TYPE_BASE_APPLICATION => 1
  | .TYPE_APPLICATION => 2
  | .TYPE_APPLICATION_STARTING => 3
  | .TYPE_APPLICATION_OVERLAY => 4
  | .TYPE_LAST_APPLICATION_WINDOW => 99
  | .TYPE_UNKNOW => -1

/-- Decode a wire integer to the WindowType enumerator carrying that value. -/
def WindowType.ofCode : Int → Option WindowType
  | 2000 => some .TYPE_WALLPAPER
  | 2001 => some .TYPE_DESKTOP
  | 2002 => some .TYPE_DIALOG
  | 2003 => some .TYPE_SYS_SPLASH
  | 2004 => some .TYPE_SEARCH_BAR
  | 2005 => some .TYPE_NOTIFICATION
  | 2006 => some .TYPE_CRITICAL_NOTIFICATION
  | 2007 => some .TYPE_INPUT_METHOD
  | 2008 => some .TYPE_INPUT_METHOD_DIALOG
  | 2009 => some .TYPE_DND
  | 2010 => some .TYPE_DOCK
  | 2011 => some .TYPE_STATUS_BAR
  | 2012 => some .TYPE_STATUS_BAR_PANEL
  | 2013 => some .TYPE_TOAST
  | 2014 => some .TYPE_KEYGUARD
  | 2015 => some .TYPE_PHONE
  | 2016 => some .TYPE_SYSTEM_DIALOG
  | 2017 => some .TYPE_SYSTEM_ERROR
  | 2018 => some .TYPE_VOICE_INTERACTION
  | 2019 => some .TYPE_SYSTEM_OVERLAY
  | 2020 => some .TYPE_SCREENSHOT
  | 2021 => some .TYPE_BOOT_PROGRESS
  | 2022 => some .TYPE_POINTER
  | 2099 => some .TYPE_LAST_SYS_LAYER
  | 1 => some .TYPE_BASE_APPLICATION
  | 2 => some .TYPE_APPLICATION
  | 3 => some .TYPE_APPLICATION_STARTING
  | 4 => some .TYPE_APPLICATION_OVERLAY
  | 99 => some .TYPE_LAST_APPLICATION_WINDOW
  | -1 => some .TYPE_UNKNOW
  | _ => none

/-- Auto-hide handshake states. Modelled from the spec: the four-state
machine of section 4.2 with states Shown (initial), HideRequested, Hidden,
ShowRequested. -/
inductive AutoHideState
  | Shown
  | HideRequested
  | Hidden
  | ShowRequested
deriving DecidableEq, Repr, Fintype

/-- Modelled from the spec: the mutable metadata of one shell-surface
(section 3 of the spec); the implementation file holding this state is not
part of the repository snapshot, only the header is. The surfaceId field
stands for the immutable pairing with the base surface; windowType is kept
as a raw integer because window-type values are open-set metadata preserved
verbatim. -/
structure ShellSurfaceState where
  surfaceId : Nat
  output : Option Nat
  positionSet : Bool
  position : Int × Int
  role : Role
  panelBehavior : PanelBehavior
  skipTaskbar : Bool
  skipSwitcher : Bool
  panelTakesFocus : Bool
  windowType : Int
  visible : Bool
  autoHide : AutoHideState
deriving DecidableEq, Repr

/-- Modelled from the spec: initial state of a fresh shell-surface;
position-set false, role Normal, panel-behavior AlwaysVisible, flags false,
window-type TYPE_UNKNOW with value minus one, auto-hide state Shown. -/
def initState : ShellSurfaceState where
  surfaceId := 0
  output := none
  positionSet := false
  position := (0, 0)
  role := Role.Normal
  panelBehavior := PanelBehavior.AlwaysVisible
  skipTaskbar := false
  skipSwitcher := false
  panelTakesFocus := false
  windowType := -1
  visible := false
  autoHide := AutoHideState.Shown

/-- Requests reaching a shell-surface: the client requests of the
org_kde_plasma_shell_surface interface (header and spec section 6) plus the
compositor-facing calls hideAutoHidingPanel, showAutoHidingPanel and the
compositor-driven visibility update. -/
inductive Request
  | set_output (o : Nat)
  | set_position (x y : Int)
  | set_role (code : Nat)
  | set_panel_behavior (code : Nat)
  | set_skip_taskbar (b : Bool)
  | set_skip_switcher (b : Bool)
  | set_panel_takes_focus (b : Bool)
  | set_window_type (w : Int)
  | panel_auto_hide_hide
  | panel_auto_hide_show
  | hide_auto_hiding_panel
  | show_auto_hiding_panel
  | set_visible (b : Bool)
deriving DecidableEq, Repr

/-- Signals of PlasmaShellSurfaceInterface, transcribed from the header
lines 203 to 262, plus the two wire events of the auto-hide handshake
(auto_hidden_panel_hidden and auto_hidden_panel_shown). -/
inductive Signal
  | positionChanged
  | roleChanged
  | panelBehaviorChanged
  | skipTaskbarChanged
  | skipSwitcherChanged
  | visibleChanged
  | panelAutoHideHideRequested
  | panelAutoHideShowRequested
  | panelTakesFocusChanged
  | windowTypeChanged
  | autoHiddenPanelHidden
  | autoHiddenPanelShown
deriving DecidableEq, Repr, Fintype

/-- Protocol errors of the interface (spec section 7). -/
inductive ProtocolError
  | invalidRole
  | invalidPanelBehavior
  | invalidAutoHideState
  | roleAlreadyAssigned
deriving DecidableEq, Repr

/-- Modelled from the spec: the emit-on-change notification policy of the
spec (notifications fire on genuine value transitions); given the state
before and after a request, the changed notifications to emit. Only one
block can be nonempty per request since every request mutates at most one
attribute group; position and position-set share positionChanged. -/
def changedSignals (old nw : ShellSurfaceState) : List Signal :=
  (if nw.positionSet = old.positionSet ∧ nw.position = old.position then []
    else [Signal.positionChanged]) ++
  (if nw.role = old.role then [] else [Signal.roleChanged]) ++
  (if nw.panelBehavior = old.panelBehavior then [] else [Signal.panelBehaviorChanged]) ++
  (if nw.skipTaskbar = old.skipTaskbar then [] else [Signal.skipTaskbarChanged]) ++
  (if nw.skipSwitcher = old.skipSwitcher then [] else [Signal.skipSwitcherChanged]) ++
  (if nw.panelTakesFocus = old.panelTakesFocus then [] else [Signal.panelTakesFocusChanged]) ++
  (if nw.windowType = old.windowType then [] else [Signal.windowTypeChanged]) ++
  (if nw.visible = old.visible then [] else [Signal.visibleChanged])

/-- Modelled from the spec: the state transition and the non-changed
(handshake) signals of each request, section 4.2 of the spec. Decoding an
out-of-range enum code is a protocol error; the two panel_auto_hide
requests are valid only when role is Panel and panel-behavior is AutoHide;
the auto-hide field follows exactly the transitions of the four-state
machine and is left unchanged by every combination not listed there. -/
def applyReq (s : ShellSurfaceState) : Request → Except ProtocolError (ShellSurfaceState × List Signal)
  | .set_output o => .ok ({ s with output := some o }, [])
  | .set_position x y => .ok ({ s with positionSet := true, position := (x, y) }, [])
  | .set_role c =>
      match Role.ofCode c with
      | none => .error .invalidRole
      | some r => .ok ({ s with role := r }, [])
  | .set_panel_behavior c =>
      match PanelBehavior.ofCode c with
      | none => .error .invalidPanelBehavior
      | some b => .ok ({ s with panelBehavior := b }, [])
  | .set_skip_taskbar b => .ok ({ s with skipTaskbar := b }, [])
  | .set_skip_switcher b => .ok ({ s with skipSwitcher := b }, [])
  | .set_panel_takes_focus b => .ok ({ s with panelTakesFocus := b }, [])
  | .set_window_type w => .ok ({ s with windowType := w }, [])
  | .panel_auto_hide_hide =>
      if s.role = Role.Panel ∧ s.panelBehavior = PanelBehavior.AutoHide then
        .ok ({ s with autoHide :=
            if s.autoHide = AutoHideState.Shown then AutoHideState.HideRequested
            else s.autoHide },
          [Signal.panelAutoHideHideRequested])
      else .error .invalidAutoHideState
  | .panel_auto_hide_show =>
      if s.role = Role.Panel ∧ s.panelBehavior = PanelBehavior.AutoHide then
        .ok ({ s with autoHide :=
            if s.autoHide = AutoHideState.Hidden then AutoHideState.ShowRequested
            else s.autoHide },
          [Signal.panelAutoHideShowRequested])
      else .error .invalidAutoHideState
  | .hide_auto_hiding_panel =>
      .ok ({ s with autoHide :=
          if s.autoHide = AutoHideState.HideRequested then AutoHideState.Hidden
          else s.autoHide },
        [Signal.autoHiddenPanelHidden])
  | .show_auto_hiding_panel =>
      .ok ({ s with autoHide :=
          if s.autoHide = AutoHideState.HideRequested ∨ s.autoHide = AutoHideState.ShowRequested
          then AutoHideState.Shown else s.autoHide },
        [Signal.autoHiddenPanelShown])
  | .set_visible b => .ok ({ s with visible := b }, [])

/-- Modelled from the spec: full dispatch of one request; on success the
emitted signals are the changed notifications of the genuine value
transitions followed by the handshake signals of the request, in request
order; on a protocol error nothing is emitted and the state is unchanged. -/
def dispatch (s : ShellSurfaceState) (r : Request) :
    Except ProtocolError (ShellSurfaceState × List Signal) :=
  match applyReq s r with
  | .error e => .error e
  | .ok (s2, ev) => .ok (s2, changedSignals s s2 ++ ev)

/-- State after a request; a request that raised a protocol error leaves the
state unchanged. -/
def runReq (s : ShellSurfaceState) (r : Request) : ShellSurfaceState :=
  match dispatch s r with
  | .ok (s2, _) => s2
  | .error _ => s

/-- Signals emitted by one request; a protocol error emits nothing. -/
def stepSignals (s : ShellSurfaceState) (r : Request) : List Signal :=
  match dispatch s r with
  | .ok (_, sigs) => sigs
  | .error _ => []

/-- Handshake signals of one request (the non-changed signals). -/
def stepEvents (s : ShellSurfaceState) (r : Request) : List Signal :=
  match applyReq s r with
  | .ok (_, ev) => ev
  | .error _ => []

/-- State of a fresh shell-surface after a sequence of requests. -/
def run (tr : List Request) : ShellSurfaceState :=
  tr.foldl runReq initState

/-- All signals emitted along a sequence of requests, in order. -/
def runSignals : ShellSurfaceState → List Request → List Signal
  | _, [] => []
  | s, r :: tr => stepSignals s r ++ runSignals (runReq s r) tr

/-- Number of genuine transitions of an observed value along a sequence of
requests. -/
def countTransitions {α : Type} [DecidableEq α] (f : ShellSurfaceState → α) :
    ShellSurfaceState → List Request → Nat
  | _, [] => 0
  | s, r :: tr =>
      (if f (runReq s r) = f s then 0 else 1) + countTransitions f (runReq s r) tr

/-- Modelled from the spec: the state of the shell global, reduced to the
set of base surfaces that currently have a live shell-surface. -/
inductive GlobalEvent
  | surfaceCreated (base : Nat)
deriving DecidableEq, Repr

/-- Modelled from the spec: the get_surface request of the shell global; a
base surface that already has a live shell-surface yields the protocol
error named role already assigned, otherwise a shell-surface is created and
surfaceCreated is emitted exactly once. -/
def getSurface (assigned : List Nat) (base : Nat) :
    Except ProtocolError (List Nat × List GlobalEvent) :=
  if base ∈ assigned then .error .roleAlreadyAssigned
  else .ok (base :: assigned, [GlobalEvent.surfaceCreated base])

/-- Operations that change which base surfaces hold a live shell-surface:
creation via get_surface and destruction of a shell-surface. -/
inductive GlobalOp
  | get_surface (base : Nat)
  | destroy_surface (base : Nat)
deriving DecidableEq, Repr

/-- Modelled from the spec: effect of one global operation on the set of
assigned base surfaces; a failing get_surface leaves the set unchanged. -/
def globalStep (assigned : List Nat) : GlobalOp → List Nat
  | .get_surface b =>
      match getSurface assigned b with
      | .ok (a, _) => a
      | .error _ => assigned
  | .destroy_surface b => assigned.erase b

/-- A shell-surface in the state reached by setting role Panel and
panel-behavior AutoHide on a fresh surface. -/
def panelAutoHideInit : ShellSurfaceState :=
  { initState with role := Role.Panel, panelBehavior := PanelBehavior.AutoHide }

/-- Accessors of the shell-surface interface, transcribed from the header
lines 70 to 202. -/
inductive Accessor
  | surface
  | position
  | isPositionSet
  | role
  | panelBehavior
  | skipTaskbar
  | skipSwitcher
  | panelTakesFocus
  | windowType
  | visible
deriving DecidableEq, Repr, Fintype

/-- The changed notification declared in the header for each accessor, if
any: transcribed from the signal block of the header (lines 203 to 262).
The surface accessor has no changed signal there; position and
isPositionSet share positionChanged. -/
def changedSignalFor : Accessor → Option Signal
  | .surface => none
  | .position => some Signal.positionChanged
  | .isPositionSet => some Signal.positionChanged
  | .role => some Signal.roleChanged
  | .panelBehavior => some Signal.panelBehaviorChanged
  | .skipTaskbar => some Signal.skipTaskbarChanged
  | .skipSwitcher => some Signal.skipSwitcherChanged
  | .panelTakesFocus => some Signal.panelTakesFocusChanged
  | .windowType => some Signal.windowTypeChanged
  | .visible => some Signal.visibleChanged

/-- C7: the wire codes of the Role enumeration are Normal 0, Desktop 1,
Panel 2, OnScreenDisplay 3, Notification 4, ToolTip 5,
CriticalNotification 6, and the PanelBehavior enumeration takes the
consecutive codes 0, 1, 2, 3 in the order AlwaysVisible, AutoHide,
WindowsCanCover, WindowsGoBelow. -/
theorem role_and_panel_behavior_wire_codes :
    Role.code Role.Normal = 0 ∧
    Role.code Role.Desktop = 1 ∧
    Role.code Role.Panel = 2 ∧
    Role.code Role.OnScreenDisplay = 3 ∧
    Role.code Role.Notification = 4 ∧
    Role.code Role.ToolTip = 5 ∧
    Role.code Role.CriticalNotification = 6 ∧
    PanelBehavior.code PanelBehavior.AlwaysVisible = 0 ∧
    PanelBehavior.code PanelBehavior.AutoHide = 1 ∧
    PanelBehavior.code PanelBehavior.WindowsCanCover = 2 ∧
    PanelBehavior.code PanelBehavior.WindowsGoBelow = 3 := by
  decide

/-- C8: a fresh shell-surface has windowType equal to the minus-one unknown
sentinel, and the WindowType enumeration assigns exactly the system-range
values of the spec, TYPE_WALLPAPER 2000 consecutively through TYPE_POINTER
2022 plus TYPE_LAST_SYS_LAYER 2099. -/
theorem window_type_default_and_system_codes :
    initState.windowType = -1 ∧
    WindowType.code WindowType.TYPE_UNKNOW = -1 ∧
    initState.windowType = WindowType.code WindowType.TYPE_UNKNOW ∧
    WindowType.code WindowType.TYPE_WALLPAPER = 2000 ∧
    WindowType.code WindowType.TYPE_DESKTOP = 2001 ∧
    WindowType.code WindowType.TYPE_DIALOG = 2002 ∧
    WindowType.code WindowType.TYPE_SYS_SPLASH = 2003 ∧
    WindowType.code WindowType.TYPE_SEARCH_BAR = 2004 ∧
    WindowType.code WindowType.TYPE_NOTIFICATION = 2005 ∧
    WindowType.code WindowType.TYPE_CRITICAL_NOTIFICATION = 2006 ∧
    WindowType.code WindowType.TYPE_INPUT_METHOD = 2007 ∧
    WindowType.code WindowType.TYPE_INPUT_METHOD_DIALOG = 2008 ∧
    WindowType.code WindowType.TYPE_DND = 2009 ∧
    WindowType.code WindowType.TYPE_DOCK = 2010 ∧
    WindowType.code WindowType.TYPE_STATUS_BAR = 2011 ∧
    WindowType.code WindowType.TYPE_STATUS_BAR_PANEL = 2012 ∧
    WindowType.code WindowType.TYPE_TOAST = 2013 ∧
    WindowType.code WindowType.TYPE_KEYGUARD = 2014 ∧
    WindowType.code WindowType.TYPE_PHONE = 2015 ∧
    WindowType.code WindowType.TYPE_SYSTEM_DIALOG = 2016 ∧
    WindowType.code WindowType.TYPE_SYSTEM_ERROR = 2017 ∧
    WindowType.code WindowType.TYPE_VOICE_INTERACTION = 2018 ∧
    WindowType.code WindowType.TYPE_SYSTEM_OVERLAY = 2019 ∧
    WindowType.code WindowType.TYPE_SCREENSHOT = 2020 ∧
    WindowType.code WindowType.TYPE_BOOT_PROGRESS = 2021 ∧
    WindowType.code WindowType.TYPE_POINTER = 2022 ∧
    WindowType.code WindowType.TYPE_LAST_SYS_LAYER = 2099 := by
  decide

/-- C10: the WindowType enumeration also defines the application-layer
constants TYPE_BASE_APPLICATION 1, TYPE_APPLICATION 2,
TYPE_APPLICATION_STARTING 3, TYPE_APPLICATION_OVERLAY 4,
TYPE_LAST_APPLICATION_WINDOW 99, spells the unknown sentinel TYPE_UNKNOW
with value minus one, its constants denote pairwise-distinct integers, and
decoding any listed wire integer yields the unique matching enumerator. -/
theorem window_type_app_constants_and_injective :
    WindowType.code WindowType.TYPE_BASE_APPLICATION = 1 ∧
    WindowType.code WindowType.TYPE_APPLICATION = 2 ∧
    WindowType.code WindowType.TYPE_APPLICATION_STARTING = 3 ∧
    WindowType.code WindowType.TYPE_APPLICATION_OVERLAY = 4 ∧
    WindowType.code WindowType.TYPE_LAST_APPLICATION_WINDOW = 99 ∧
    WindowType.code WindowType.TYPE_UNKNOW = -1 ∧
    (∀ a b : WindowType, WindowType.code a = WindowType.code b → a = b) ∧
    (∀ w : WindowType, WindowType.ofCode (WindowType.code w) = some w) := by
  refine ⟨rfl, rfl, rfl, rfl, rfl, rfl, ?_, ?_⟩ <;> decide

/-- Witness for C10: instantiating the injectivity clause at a concrete
pair of enumerators. -/
theorem window_type_app_constants_and_injective_witness :
    WindowType.TYPE_PHONE = WindowType.TYPE_PHONE :=
  window_type_app_constants_and_injective.2.2.2.2.2.2.1
    WindowType.TYPE_PHONE WindowType.TYPE_PHONE rfl

/-- No request other than the four handshake operations touches the
auto-hide state. -/
theorem runReq_autoHide_frame (s : ShellSurfaceState) (r : Request)
    (h1 : r ≠ Request.panel_auto_hide_hide) (h2 : r ≠ Request.panel_auto_hide_show)
    (h3 : r ≠ Request.hide_auto_hiding_panel) (h4 : r ≠ Request.show_auto_hiding_panel) :
    (runReq s r).autoHide = s.autoHide := by
  cases r <;> simp only [runReq, dispatch, applyReq]
  case set_role c => cases Role.ofCode c <;> simp
  case set_panel_behavior c => cases PanelBehavior.ofCode c <;> simp
  case panel_auto_hide_hide => exact absurd rfl h1
  case panel_auto_hide_show => exact absurd rfl h2
  case hide_auto_hiding_panel => exact absurd rfl h3
  case show_auto_hiding_panel => exact absurd rfl h4

/-- Changed signals of a state against itself are empty. -/
theorem changedSignals_self (s : ShellSurfaceState) : changedSignals s s = [] := by
  simp [changedSignals]

/-- C1: for a shell-surface with role Panel and panel-behavior AutoHide the
auto-hide handshake is the four-state machine with initial state Shown and
exactly the five listed transitions: panel_auto_hide_hide takes Shown to
HideRequested emitting panelAutoHideHideRequested; hideAutoHidingPanel
takes HideRequested to Hidden emitting the hidden event;
showAutoHidingPanel takes HideRequested to Shown emitting the shown event;
panel_auto_hide_show takes Hidden to ShowRequested emitting
panelAutoHideShowRequested; showAutoHidingPanel takes ShowRequested to
Shown emitting the shown event; every combination of operation and state
not listed leaves the auto-hide state unchanged. -/
theorem auto_hide_state_machine (s : ShellSurfaceState)
    (hrole : s.role = Role.Panel) (hbeh : s.panelBehavior = PanelBehavior.AutoHide) :
    initState.autoHide = AutoHideState.Shown ∧
    (s.autoHide = AutoHideState.Shown →
      dispatch s Request.panel_auto_hide_hide =
        Except.ok ({ s with autoHide := AutoHideState.HideRequested },
          [Signal.panelAutoHideHideRequested])) ∧
    (s.autoHide = AutoHideState.HideRequested →
      dispatch s Request.hide_auto_hiding_panel =
        Except.ok ({ s with autoHide := AutoHideState.Hidden },
          [Signal.autoHiddenPanelHidden])) ∧
    (s.autoHide = AutoHideState.HideRequested →
      dispatch s Request.show_auto_hiding_panel =
        Except.ok ({ s with autoHide := AutoHideState.Shown },
          [Signal.autoHiddenPanelShown])) ∧
    (s.autoHide = AutoHideState.Hidden →
      dispatch s Request.panel_auto_hide_show =
        Except.ok ({ s with autoHide := AutoHideState.ShowRequested },
          [Signal.panelAutoHideShowRequested])) ∧
    (s.autoHide = AutoHideState.ShowRequested →
      dispatch s Request.show_auto_hiding_panel =
        Except.ok ({ s with autoHide := AutoHideState.Shown },
          [Signal.autoHiddenPanelShown])) ∧
    (s.autoHide ≠ AutoHideState.Shown →
      (runReq s Request.panel_auto_hide_hide).autoHide = s.autoHide) ∧
    (s.autoHide ≠ AutoHideState.Hidden →
      (runReq s Request.panel_auto_hide_show).autoHide = s.autoHide) ∧
    (s.autoHide ≠ AutoHideState.HideRequested →
      (runReq s Request.hide_auto_hiding_panel).autoHide = s.autoHide) ∧
    (s.autoHide ≠ AutoHideState.HideRequested → s.autoHide ≠ AutoHideState.ShowRequested →
      (runReq s Request.show_auto_hiding_panel).autoHide = s.autoHide) ∧
    (∀ r : Request, r ≠ Request.panel_auto_hide_hide → r ≠ Request.panel_auto_hide_show →
      r ≠ Request.hide_auto_hiding_panel → r ≠ Request.show_auto_hiding_panel →
      (runReq s r).autoHide = s.autoHide) := by
  refine ⟨rfl, ?_, ?_, ?_, ?_, ?_, ?_, ?_, ?_, ?_, ?_⟩
  · intro h
    simp [dispatch, applyReq, hrole, hbeh, h, changedSignals]
  · intro h
    simp [dispatch, applyReq, h, changedSignals]
  · intro h
    simp [dispatch, applyReq, h, changedSignals]
  · intro h
    simp [dispatch, applyReq, hrole, hbeh, h, changedSignals]
  · intro h
    simp [dispatch, applyReq, h, changedSignals]
  · intro h
    simp [runReq, dispatch, applyReq, hrole, hbeh, h]
  · intro h
    simp [runReq, dispatch, applyReq, hrole, hbeh, h]
  · intro h
    simp [runReq, dispatch, applyReq, h]
  · intro h1 h2
    simp [runReq, dispatch, applyReq, h1, h2]
  · intro r h1 h2 h3 h4
    exact runReq_autoHide_frame s r h1 h2 h3 h4

/-- Witness for C1: the first transition of the machine driven on a fresh
panel with behavior AutoHide. -/
theorem auto_hide_state_machine_witness :
    dispatch panelAutoHideInit Request.panel_auto_hide_hide =
      Except.ok ({ panelAutoHideInit with autoHide := AutoHideState.HideRequested },
        [Signal.panelAutoHideHideRequested]) :=
  (auto_hide_state_machine panelAutoHideInit rfl rfl).2.1 rfl

/-- C2: on a shell-surface whose role is not Panel or whose panel-behavior
is not AutoHide, the requests panel_auto_hide_hide and panel_auto_hide_show
raise a protocol error, emit no signal, and leave the state unchanged. -/
theorem auto_hide_wrong_state_error (s : ShellSurfaceState)
    (h : s.role ≠ Role.Panel ∨ s.panelBehavior ≠ PanelBehavior.AutoHide) :
    dispatch s Request.panel_auto_hide_hide = Except.error ProtocolError.invalidAutoHideState ∧
    dispatch s Request.panel_auto_hide_show = Except.error ProtocolError.invalidAutoHideState ∧
    runReq s Request.panel_auto_hide_hide = s ∧
    runReq s Request.panel_auto_hide_show = s ∧
    stepSignals s Request.panel_auto_hide_hide = [] ∧
    stepSignals s Request.panel_auto_hide_show = [] := by
  have hc : ¬(s.role = Role.Panel ∧ s.panelBehavior = PanelBehavior.AutoHide) := by
    rcases h with h | h <;> intro hx <;> exact h (by simp [hx.1, hx.2])
  refine ⟨?_, ?_, ?_, ?_, ?_, ?_⟩ <;>
    simp [dispatch, applyReq, runReq, stepSignals, hc]

/-- Witness for C2: a fresh shell-surface has role Normal, so the hide
request errors out. -/
theorem auto_hide_wrong_state_error_witness :
    dispatch initState Request.panel_auto_hide_hide =
      Except.error ProtocolError.invalidAutoHideState :=
  (auto_hide_wrong_state_error initState (Or.inl (by decide))).1

/-- C9: on a shell-surface whose window-type differs from 2005,
set_window_type 2005 makes windowType equal the TYPE_NOTIFICATION value and
emits windowTypeChanged exactly once; repeating set_window_type 2005 with
the value unchanged leaves windowType unchanged and emits nothing. -/
theorem set_window_type_idempotent (s : ShellSurfaceState)
    (h : s.windowType ≠ WindowType.code WindowType.TYPE_NOTIFICATION) :
    WindowType.code WindowType.TYPE_NOTIFICATION = 2005 ∧
    dispatch s (Request.set_window_type 2005) =
      Except.ok ({ s with windowType := 2005 }, [Signal.windowTypeChanged]) ∧
    dispatch { s with windowType := 2005 } (Request.set_window_type 2005) =
      Except.ok ({ s with windowType := 2005 }, []) := by
  have h2005 : s.windowType ≠ 2005 := h
  refine ⟨rfl, ?_, ?_⟩
  · simp [dispatch, applyReq, changedSignals, Ne.symm h2005]
  · simp [dispatch, applyReq, changedSignals]

/-- Witness for C9: a fresh shell-surface has window-type minus one, so the
first set_window_type 2005 emits windowTypeChanged exactly once. -/
theorem set_window_type_idempotent_witness :
    dispatch initState (Request.set_window_type 2005) =
      Except.ok ({ initState with windowType := 2005 }, [Signal.windowTypeChanged]) :=
  (set_window_type_idempotent initState (by decide)).2.1

/-- The position argument carried by a request, if it is set_position. -/
def posArg : Request → Option (Int × Int)
  | .set_position x y => some (x, y)
  | _ => none

/-- The decoded role carried by a request, if it is a set_role request
whose code decodes; a rejected code yields none. -/
def roleArg : Request → Option Role
  | .set_role c => Role.ofCode c
  | _ => none

/-- The decoded panel-behavior carried by a request, if it is a
set_panel_behavior request whose code decodes. -/
def behaviorArg : Request → Option PanelBehavior
  | .set_panel_behavior c => PanelBehavior.ofCode c
  | _ => none

/-- Argument of the most recent set_position request of a trace. -/
def lastSetPosition : List Request → Option (Int × Int)
  | [] => none
  | r :: tr =>
      match lastSetPosition tr with
      | some p => some p
      | none => posArg r

/-- Argument of the most recent accepted set_role request of a trace. -/
def lastAcceptedRole : List Request → Option Role
  | [] => none
  | r :: tr =>
      match lastAcceptedRole tr with
      | some x => some x
      | none => roleArg r

/-- Argument of the most recent accepted set_panel_behavior request. -/
def lastAcceptedBehavior : List Request → Option PanelBehavior
  | [] => none
  | r :: tr =>
      match lastAcceptedBehavior tr with
      | some x => some x
      | none => behaviorArg r

/-- How one request acts on position-set and position. -/
theorem runReq_position_eq (s : ShellSurfaceState) (r : Request) :
    (runReq s r).positionSet = (s.positionSet || (posArg r).isSome) ∧
    (runReq s r).position = (posArg r).getD s.position := by
  cases r <;> simp only [runReq, dispatch, applyReq, posArg]
  case set_role c => cases Role.ofCode c <;> simp
  case set_panel_behavior c => cases PanelBehavior.ofCode c <;> simp
  case panel_auto_hide_hide =>
    by_cases hc : s.role = Role.Panel ∧ s.panelBehavior = PanelBehavior.AutoHide <;> simp [hc]
  case panel_auto_hide_show =>
    by_cases hc : s.role = Role.Panel ∧ s.panelBehavior = PanelBehavior.AutoHide <;> simp [hc]
  all_goals simp

/-- How one request acts on the stored role. -/
theorem runReq_role_eq (s : ShellSurfaceState) (r : Request) :
    (runReq s r).role = (roleArg r).getD s.role := by
  cases r <;> simp only [runReq, dispatch, applyReq, roleArg]
  case set_role c => cases Role.ofCode c <;> simp
  case set_panel_behavior c => cases PanelBehavior.ofCode c <;> simp
  case panel_auto_hide_hide =>
    by_cases hc : s.role = Role.Panel ∧ s.panelBehavior = PanelBehavior.AutoHide <;> simp [hc]
  case panel_auto_hide_show =>
    by_cases hc : s.role = Role.Panel ∧ s.panelBehavior = PanelBehavior.AutoHide <;> simp [hc]
  all_goals simp

/-- How one request acts on the stored panel-behavior. -/
theorem runReq_behavior_eq (s : ShellSurfaceState) (r : Request) :
    (runReq s r).panelBehavior = (behaviorArg r).getD s.panelBehavior := by
  cases r <;> simp only [runReq, dispatch, applyReq, behaviorArg]
  case set_role c => cases Role.ofCode c <;> simp
  case set_panel_behavior c => cases PanelBehavior.ofCode c <;> simp
  case panel_auto_hide_hide =>
    by_cases hc : s.role = Role.Panel ∧ s.panelBehavior = PanelBehavior.AutoHide <;> simp [hc]
  case panel_auto_hide_show =>
    by_cases hc : s.role = Role.Panel ∧ s.panelBehavior = PanelBehavior.AutoHide <;> simp [hc]
  all_goals simp

/-- Position fields after a trace, from an arbitrary start state. -/
theorem foldl_position (tr : List Request) : ∀ s : ShellSurfaceState,
    ((tr.foldl runReq s).positionSet = (s.positionSet || (lastSetPosition tr).isSome)) ∧
    (tr.foldl runReq s).position = (lastSetPosition tr).getD s.position := by
  induction tr with
  | nil => intro s; simp [lastSetPosition]
  | cons r tr ih =>
      intro s
      obtain ⟨hps, hpp⟩ := ih (runReq s r)
      obtain ⟨hqs, hqp⟩ := runReq_position_eq s r
      simp only [List.foldl_cons, lastSetPosition]
      rw [hps, hpp, hqs, hqp]
      cases hlast : lastSetPosition tr <;> cases hp : posArg r <;>
        simp [Bool.or_assoc]

/-- Role field after a trace, from an arbitrary start state. -/
theorem foldl_role (tr : List Request) : ∀ s : ShellSurfaceState,
    (tr.foldl runReq s).role = (lastAcceptedRole tr).getD s.role := by
  induction tr with
  | nil => intro s; simp [lastAcceptedRole]
  | cons r tr ih =>
      intro s
      simp only [List.foldl_cons, lastAcceptedRole]
      rw [ih (runReq s r), runReq_role_eq s r]
      cases hlast : lastAcceptedRole tr <;> cases hr : roleArg r <;> simp

/-- Panel-behavior field after a trace, from an arbitrary start state. -/
theorem foldl_behavior (tr : List Request) : ∀ s : ShellSurfaceState,
    (tr.foldl runReq s).panelBehavior = (lastAcceptedBehavior tr).getD s.panelBehavior := by
  induction tr with
  | nil => intro s; simp [lastAcceptedBehavior]
  | cons r tr ih =>
      intro s
      simp only [List.foldl_cons, lastAcceptedBehavior]
      rw [ih (runReq s r), runReq_behavior_eq s r]
      cases hlast : lastAcceptedBehavior tr <;> cases hb : behaviorArg r <;> simp

/-- C3: position-set is false on a fresh shell-surface, is true after a
trace exactly when the trace contains a set_position request (so it never
returns to false), and whenever it is true the stored position equals the
argument of the most recent set_position request. -/
theorem position_set_tracks (tr : List Request) :
    initState.positionSet = false ∧
    (run tr).positionSet = (lastSetPosition tr).isSome ∧
    (∀ p : Int × Int, lastSetPosition tr = some p → (run tr).position = p) := by
  obtain ⟨hs, hp⟩ := foldl_position tr initState
  refine ⟨rfl, ?_, ?_⟩
  · simpa [run, initState] using hs
  · intro p hlast
    rw [run, hp, hlast]
    rfl

/-- Witness for C3: after set_position 3 4 the stored position is the pair
3, 4. -/
theorem position_set_tracks_witness :
    (run [Request.set_position 3 4]).position = (3, 4) :=
  (position_set_tracks [Request.set_position 3 4]).2.2 (3, 4) rfl

/-- C4: after any trace the role equals the argument of the last accepted
set_role request, Normal if none was accepted, and the panel-behavior
equals the argument of the last accepted set_panel_behavior request,
AlwaysVisible if none; the stored panel-behavior depends only on
set_panel_behavior requests and is therefore retained unchanged across
role changes. -/
theorem role_and_behavior_track_last_accepted (tr : List Request) :
    (run tr).role = (lastAcceptedRole tr).getD Role.Normal ∧
    (run tr).panelBehavior = (lastAcceptedBehavior tr).getD PanelBehavior.AlwaysVisible := by
  constructor
  · rw [run, foldl_role tr initState]; rfl
  · rw [run, foldl_behavior tr initState]; rfl

/-- C5: a get_surface request on a base surface that already has a live
shell-surface fails with the protocol error named role already assigned
and the set of live shell-surfaces is unchanged, a successful get_surface
emits surfaceCreated exactly once for the new shell-surface, and along any
sequence of creations and destructions each base surface has at most one
live shell-surface. -/
theorem get_surface_at_most_one (assigned : List Nat) (base : Nat) :
    (base ∈ assigned → getSurface assigned base = Except.error ProtocolError.roleAlreadyAssigned) ∧
    (base ∈ assigned → globalStep assigned (GlobalOp.get_surface base) = assigned) ∧
    (base ∉ assigned → getSurface assigned base =
      Except.ok (base :: assigned, [GlobalEvent.surfaceCreated base])) ∧
    (∀ ops : List GlobalOp, assigned.Nodup → (ops.foldl globalStep assigned).Nodup) := by
  refine ⟨?_, ?_, ?_, ?_⟩
  · intro h; simp [getSurface, h]
  · intro h; simp [globalStep, getSurface, h]
  · intro h; simp [getSurface, h]
  · intro ops
    induction ops generalizing assigned with
    | nil => intro h; exact h
    | cons op ops ih =>
        intro h
        refine ih (globalStep assigned op) ?_
        cases op with
        | get_surface b =>
            by_cases hb : b ∈ assigned
            · simpa [globalStep, getSurface, hb] using h
            · simp only [globalStep, getSurface, hb, if_neg]
              simpa using List.nodup_cons.mpr ⟨hb, h⟩
        | destroy_surface b => exact h.erase b

/-- Witness for C5: a second get_surface on base 5 fails with the role
already assigned error. -/
theorem get_surface_at_most_one_witness :
    getSurface [5] 5 = Except.error ProtocolError.roleAlreadyAssigned :=
  (get_surface_at_most_one [5] 5).1 (by decide)

/-- Count of one signal in an emit-on-change block. -/
theorem count_toggle (c : Prop) [Decidable c] (a b : Signal) :
    (if c then ([] : List Signal) else [a]).count b =
      if c then 0 else if a = b then 1 else 0 := by
  by_cases hc : c
  · simp [hc]
  · by_cases hab : a = b
    · simp [hc, hab]
    · rw [if_neg hc, if_neg hc, if_neg hab, List.count_eq_zero]
      intro hmem
      exact hab (List.mem_singleton.mp hmem).symm

/-- Emissions of positionChanged match transitions of the pair of
position-set and position. -/
theorem count_changed_position (old nw : ShellSurfaceState) :
    (changedSignals old nw).count Signal.positionChanged =
      if (nw.positionSet, nw.position) = (old.positionSet, old.position) then 0 else 1 := by
  simp only [changedSignals, List.count_append, count_toggle]
  by_cases h : nw.positionSet = old.positionSet ∧ nw.position = old.position <;>
    simp [h, Prod.ext_iff]

/-- Emissions of roleChanged match transitions of role. -/
theorem count_changed_role (old nw : ShellSurfaceState) :
    (changedSignals old nw).count Signal.roleChanged =
      if nw.role = old.role then 0 else 1 := by
  simp only [changedSignals, List.count_append, count_toggle]
  by_cases h : nw.role = old.role <;> simp [h]

/-- Emissions of panelBehaviorChanged match transitions of panelBehavior. -/
theorem count_changed_behavior (old nw : ShellSurfaceState) :
    (changedSignals old nw).count Signal.panelBehaviorChanged =
      if nw.panelBehavior = old.panelBehavior then 0 else 1 := by
  simp only [changedSignals, List.count_append, count_toggle]
  by_cases h : nw.panelBehavior = old.panelBehavior <;> simp [h]

/-- Emissions of skipTaskbarChanged match transitions of skipTaskbar. -/
theorem count_changed_skipTaskbar (old nw : ShellSurfaceState) :
    (changedSignals old nw).count Signal.skipTaskbarChanged =
      if nw.skipTaskbar = old.skipTaskbar then 0 else 1 := by
  simp only [changedSignals, List.count_append, count_toggle]
  by_cases h : nw.skipTaskbar = old.skipTaskbar <;> simp [h]

/-- Emissions of skipSwitcherChanged match transitions of skipSwitcher. -/
theorem count_changed_skipSwitcher (old nw : ShellSurfaceState) :
    (changedSignals old nw).count Signal.skipSwitcherChanged =
      if nw.skipSwitcher = old.skipSwitcher then 0 else 1 := by
  simp only [changedSignals, List.count_append, count_toggle]
  by_cases h : nw.skipSwitcher = old.skipSwitcher <;> simp [h]

/-- Emissions of panelTakesFocusChanged match transitions of
panelTakesFocus. -/
theorem count_changed_panelTakesFocus (old nw : ShellSurfaceState) :
    (changedSignals old nw).count Signal.panelTakesFocusChanged =
      if nw.panelTakesFocus = old.panelTakesFocus then 0 else 1 := by
  simp only [changedSignals, List.count_append, count_toggle]
  by_cases h : nw.panelTakesFocus = old.panelTakesFocus <;> simp [h]

/-- Emissions of windowTypeChanged match transitions of windowType. -/
theorem count_changed_windowType (old nw : ShellSurfaceState) :
    (changedSignals old nw).count Signal.windowTypeChanged =
      if nw.windowType = old.windowType then 0 else 1 := by
  simp only [changedSignals, List.count_append, count_toggle]
  by_cases h : nw.windowType = old.windowType <;> simp [h]

/-- Emissions of visibleChanged match transitions of visible. -/
theorem count_changed_visible (old nw : ShellSurfaceState) :
    (changedSignals old nw).count Signal.visibleChanged =
      if nw.visible = old.visible then 0 else 1 := by
  simp only [changedSignals, List.count_append, count_toggle]
  by_cases h : nw.visible = old.visible <;> simp [h]

/-- The four handshake signals of the auto-hide protocol. -/
def isHandshake : Signal → Bool
  | .panelAutoHideHideRequested => true
  | .panelAutoHideShowRequested => true
  | .autoHiddenPanelHidden => true
  | .autoHiddenPanelShown => true
  | _ => false

/-- Every non-changed signal a request carries is a handshake signal. -/
theorem stepEvents_handshake (s : ShellSurfaceState) (r : Request) :
    ∀ g ∈ stepEvents s r, isHandshake g = true := by
  intro g hg
  cases r
  case set_role c =>
    cases hc : Role.ofCode c <;> simp [stepEvents, applyReq, hc] at hg
  case set_panel_behavior c =>
    cases hc : PanelBehavior.ofCode c <;> simp [stepEvents, applyReq, hc] at hg
  case panel_auto_hide_hide =>
    by_cases hc : s.role = Role.Panel ∧ s.panelBehavior = PanelBehavior.AutoHide <;>
      simp [stepEvents, applyReq, hc] at hg
    subst hg; rfl
  case panel_auto_hide_show =>
    by_cases hc : s.role = Role.Panel ∧ s.panelBehavior = PanelBehavior.AutoHide <;>
      simp [stepEvents, applyReq, hc] at hg
    subst hg; rfl
  case hide_auto_hiding_panel =>
    simp [stepEvents, applyReq] at hg
    subst hg; rfl
  case show_auto_hiding_panel =>
    simp [stepEvents, applyReq] at hg
    subst hg; rfl
  all_goals simp [stepEvents, applyReq] at hg

/-- A changed notification never occurs among the handshake signals. -/
theorem count_stepEvents_eq_zero (s : ShellSurfaceState) (r : Request) (N : Signal)
    (hN : isHandshake N = false) : (stepEvents s r).count N = 0 := by
  rw [List.count_eq_zero]
  intro hmem
  have hh := stepEvents_handshake s r N hmem
  rw [hN] at hh
  exact Bool.false_ne_true hh

/-- The signals of one request split into the changed notifications of the
transition followed by the handshake signals. -/
theorem stepSignals_decomp (s : ShellSurfaceState) (r : Request) :
    stepSignals s r = changedSignals s (runReq s r) ++ stepEvents s r := by
  simp only [stepSignals, runReq, stepEvents, dispatch]
  cases h : applyReq s r with
  | error e => simp [changedSignals_self]
  | ok p =>
      obtain ⟨s2, ev⟩ := p
      rfl

/-- Master counting lemma: when the changed notifications of one step of an
observed value match its change, the emission count over a whole trace
equals the transition count. -/
theorem runSignals_count {α : Type} [DecidableEq α] (f : ShellSurfaceState → α) (N : Signal)
    (hN : isHandshake N = false)
    (hf : ∀ old nw : ShellSurfaceState, (changedSignals old nw).count N =
      if f nw = f old then 0 else 1) :
    ∀ (s : ShellSurfaceState) (tr : List Request),
      (runSignals s tr).count N = countTransitions f s tr := by
  intro s tr
  induction tr generalizing s with
  | nil => rfl
  | cons r tr ih =>
      simp only [runSignals, countTransitions, List.count_append, stepSignals_decomp,
        count_stepEvents_eq_zero s r N hN, hf, ih, Nat.add_zero]

/-- No request changes the pairing with the base surface. -/
theorem runReq_surfaceId (s : ShellSurfaceState) (r : Request) :
    (runReq s r).surfaceId = s.surfaceId := by
  cases r <;> simp only [runReq, dispatch, applyReq]
  case set_role c => cases Role.ofCode c <;> simp
  case set_panel_behavior c => cases PanelBehavior.ofCode c <;> simp
  case panel_auto_hide_hide =>
    by_cases hc : s.role = Role.Panel ∧ s.panelBehavior = PanelBehavior.AutoHide <;> simp [hc]
  case panel_auto_hide_show =>
    by_cases hc : s.role = Role.Panel ∧ s.panelBehavior = PanelBehavior.AutoHide <;> simp [hc]

/-- The pairing with the base surface is immutable along any trace. -/
theorem foldl_surfaceId (tr : List Request) : ∀ s : ShellSurfaceState,
    (tr.foldl runReq s).surfaceId = s.surfaceId := by
  induction tr with
  | nil => intro s; rfl
  | cons r tr ih =>
      intro s
      rw [List.foldl_cons, ih (runReq s r), runReq_surfaceId]

/-- Counterexample for C6: the claim lists the surface accessor among the
accessors with a corresponding changed notification, but the signal block
of the header declares no changed signal for the surface accessor. -/
theorem surface_accessor_has_no_changed_signal :
    ¬ ∀ a : Accessor, (changedSignalFor a).isSome = true := by
  decide

/-- C6 (amended): every accessor of the shell-surface interface except the
immutable surface accessor has a corresponding changed notification, with
position and isPositionSet sharing positionChanged; the surface pairing
never changes along any trace; and for every attribute with its own signal
the number of emissions along any trace equals the number of genuine value
transitions, with positionChanged counting transitions of the combined
position-set and position value. -/
theorem changed_signal_counts (s : ShellSurfaceState) (tr : List Request) :
    changedSignalFor Accessor.surface = none ∧
    changedSignalFor Accessor.position = some Signal.positionChanged ∧
    changedSignalFor Accessor.isPositionSet = some Signal.positionChanged ∧
    changedSignalFor Accessor.role = some Signal.roleChanged ∧
    changedSignalFor Accessor.panelBehavior = some Signal.panelBehaviorChanged ∧
    changedSignalFor Accessor.skipTaskbar = some Signal.skipTaskbarChanged ∧
    changedSignalFor Accessor.skipSwitcher = some Signal.skipSwitcherChanged ∧
    changedSignalFor Accessor.panelTakesFocus = some Signal.panelTakesFocusChanged ∧
    changedSignalFor Accessor.windowType = some Signal.windowTypeChanged ∧
    changedSignalFor Accessor.visible = some Signal.visibleChanged ∧
    (tr.foldl runReq s).surfaceId = s.surfaceId ∧
    (runSignals s tr).count Signal.positionChanged =
      countTransitions (fun t => (t.positionSet, t.position)) s tr ∧
    (runSignals s tr).count Signal.roleChanged =
      countTransitions (fun t => t.role) s tr ∧
    (runSignals s tr).count Signal.panelBehaviorChanged =
      countTransitions (fun t => t.panelBehavior) s tr ∧
    (runSignals s tr).count Signal.skipTaskbarChanged =
      countTransitions (fun t => t.skipTaskbar) s tr ∧
    (runSignals s tr).count Signal.skipSwitcherChanged =
      countTransitions (fun t => t.skipSwitcher) s tr ∧
    (runSignals s tr).count Signal.panelTakesFocusChanged =
      countTransitions (fun t => t.panelTakesFocus) s tr ∧
    (runSignals s tr).count Signal.windowTypeChanged =
      countTransitions (fun t => t.windowType) s tr ∧
    (runSignals s tr).count Signal.visibleChanged =
      countTransitions (fun t => t.visible) s tr := by
  refine ⟨rfl, rfl, rfl, rfl, rfl, rfl, rfl, rfl, rfl, rfl, foldl_surfaceId tr s,
    ?_, ?_, ?_, ?_, ?_, ?_, ?_, ?_⟩
  · exact runSignals_count (fun t => (t.positionSet, t.position)) Signal.positionChanged rfl
      count_changed_position s tr
  · exact runSignals_count (fun t => t.role) Signal.roleChanged rfl
      count_changed_role s tr
  · exact runSignals_count (fun t => t.panelBehavior) Signal.panelBehaviorChanged rfl
      count_changed_behavior s tr
  · exact runSignals_count (fun t => t.skipTaskbar) Signal.skipTaskbarChanged rfl
      count_changed_skipTaskbar s tr
  · exact runSignals_count (fun t => t.skipSwitcher) Signal.skipSwitcherChanged rfl
      count_changed_skipSwitcher s tr
  · exact runSignals_count (fun t => t.panelTakesFocus) Signal.panelTakesFocusChanged rfl
      count_changed_panelTakesFocus s tr
  · exact runSignals_count (fun t => t.windowType) Signal.windowTypeChanged rfl
      count_changed_windowType s tr
  · exact runSignals_count (fun t => t.visible) Signal.visibleChanged rfl
      count_changed_visible s tr

end PlasmaShell
